import Mathlib

/-!
Verification of the branch-classification policy of a multi-branch CI
repository.  The classifier is a family of pure lookup functions on the
branch-name string (Jenkinsfile helper functions), consumed by a demo HTTP
server (`src/app.js`) and a scripted fake test runner (`tests/app.test.js`).
All functions below are direct translations of the source.
-/

namespace Jenkins

/-- Prefix test on strings, modelling Groovy/JavaScript `startsWith`,
via character-list prefix matching. -/
def strStartsWith (s p : String) : Bool :=
  p.data.isPrefixOf s.data

/-- Groovy elvis normalisation `branchName = branchName ?: 'unknown'` /
JavaScript `process.env.BRANCH_NAME || 'unknown'`: an empty (falsy) branch
name is replaced by `"unknown"`. -/
def normalize (b : String) : String :=
  if b = "" then "unknown" else b

/-- Jenkinsfile `getBranchEnvironment`: main/master → production,
develop → staging, `feature/` → development, `hotfix/` → hotfix,
anything else (including `release/`) → development. -/
def getBranchEnvironment (branchName : String) : String :=
  let b := normalize branchName
  if b = "main" ∨ b = "master" then "production"
  else if b = "develop" then "staging"
  else if strStartsWith b "feature/" then "development"
  else if strStartsWith b "hotfix/" then "hotfix"
  else "development"

/-- Jenkinsfile `shouldDeploy`: `branchName in ['develop'] ||
branchName.startsWith('feature/') ? 'true' : 'false'` (the Groovy ternary
binds last, so the whole disjunction is the condition). -/
def shouldDeploy (branchName : String) : String :=
  let b := normalize branchName
  if b = "develop" ∨ strStartsWith b "feature/" then "true" else "false"

/-- Jenkinsfile `getBranchTimeout`. -/
def getBranchTimeout (branchName : String) : Nat :=
  let b := normalize branchName
  if b = "main" ∨ b = "master" then 60
  else if b = "develop" then 45
  else 30

/-- Jenkinsfile `getBranchBuildRetention` (the source returns the counts as
strings `'50'`, `'20'`, `'10'`). -/
def getBranchBuildRetention (branchName : String) : String :=
  let b := normalize branchName
  if b = "main" ∨ b = "master" then "50"
  else if b = "develop" then "20"
  else "10"

/-- Jenkinsfile `getBranchSlackChannel`. -/
def getBranchSlackChannel (branchName : String) : String :=
  let b := normalize branchName
  if b = "main" ∨ b = "master" then "#production-alerts"
  else if b = "develop" then "#staging-updates"
  else "#development"

/-- Jenkinsfile `getBranchType`. -/
def getBranchType (branchName : String) : String :=
  let b := normalize branchName
  if b = "main" ∨ b = "master" then "Production"
  else if b = "develop" then "Staging"
  else if strStartsWith b "feature/" then "Feature"
  else if strStartsWith b "hotfix/" then "Hotfix"
  else if strStartsWith b "release/" then "Release"
  else "Unknown"

/-- The guard of the `Auto Deploy` stage: `DEPLOY_ENABLED == 'true'`
(where `DEPLOY_ENABLED = shouldDeploy(env.BRANCH_NAME)`) together with the
`when` clause `branch 'develop' || (branch 'feature/*' &&
env.BRANCH_NAME != 'feature/experimental')`.  This is the auto-deploy
eligibility of a branch. -/
def autoDeployStageRuns (branchName : String) : Bool :=
  shouldDeploy branchName == "true" &&
    (branchName == "develop" ||
      (strStartsWith branchName "feature/" && !(branchName == "feature/experimental")))

/-- The full derived record of the branch classifier. -/
structure BranchClassification where
  branchType : String
  environment : String
  autoDeployEligible : Bool
  buildTimeoutMinutes : Nat
  buildRetention : String
  notificationChannel : String
deriving DecidableEq

/-- The classifier: all derived constants for one branch name. -/
def classify (branchName : String) : BranchClassification :=
  { branchType := getBranchType branchName
    environment := getBranchEnvironment branchName
    autoDeployEligible := autoDeployStageRuns branchName
    buildTimeoutMinutes := getBranchTimeout branchName
    buildRetention := getBranchBuildRetention branchName
    notificationChannel := getBranchSlackChannel branchName }

/-- The pattern list of Jenkinsfile `validateBranchName`. -/
def validBranchNamePatterns : List String :=
  ["main", "master", "develop", "feature/", "hotfix/", "release/"]

/-- Jenkinsfile `validateBranchName`, modelled as the condition under which
it echoes its naming-convention warning: the (normalised) name starts with
none of the six patterns. -/
def validateBranchNameWarns (branchName : String) : Bool :=
  let b := normalize branchName
  !(validBranchNamePatterns.any (fun p => strStartsWith b p))

/-- Character class of the Groovy regex `[^a-zA-Z0-9.-]` used by
`createDockerTag` (a character is kept iff it is in `[a-zA-Z0-9.-]`). -/
def isDockerTagChar (c : Char) : Bool :=
  (decide ('a' ≤ c) && decide (c ≤ 'z')) ||
    (decide ('A' ≤ c) && decide (c ≤ 'Z')) ||
    (decide ('0' ≤ c) && decide (c ≤ '9')) ||
    c == '.' || c == '-'

/-- Jenkinsfile `createDockerTag`: replace every character outside
`[a-zA-Z0-9.-]` by `'-'`, lowercase, and append `"-<buildNumber>"`. -/
def createDockerTag (branchName : String) (buildNumber : Nat) : String :=
  let b := normalize branchName
  let clean := String.mk ((b.data.map
    (fun c => if isDockerTagChar c then c else '-')).map Char.toLower)
  clean ++ "-" ++ toString buildNumber

/-- The tag transform exactly as the specification words it (no treatment of
the empty string): replace every character outside `[A-Za-z0-9.-]` with
`'-'`, lowercase the result, append `"-<n>"`. -/
def sanitizeTagSpec (b : String) (n : Nat) : String :=
  String.mk ((b.data.map (fun c =>
    if ('A' ≤ c ∧ c ≤ 'Z') ∨ ('a' ≤ c ∧ c ≤ 'z') ∨ ('0' ≤ c ∧ c ≤ '9') ∨
        c = '.' ∨ c = '-'
    then c else '-')).map Char.toLower) ++ "-" ++ toString n

/-- Well-formedness of a branch name exactly as the specification words it:
the name equals main, master or develop, or carries one of the three
directory prefixes. -/
def wellFormedSpec (b : String) : Bool :=
  b == "main" || b == "master" || b == "develop" ||
    strStartsWith b "feature/" || strStartsWith b "hotfix/" ||
    strStartsWith b "release/"

/-- Branch-specific configuration record of the fake test runner. -/
structure TestConfig where
  testCount : Nat
  environment : String
  skipIntegrationTests : Bool
deriving DecidableEq

/-- `testConfig['main']` of the test script. -/
def testConfigMain : TestConfig := ⟨15, "production", false⟩

/-- `testConfig['develop']` of the test script. -/
def testConfigDevelop : TestConfig := ⟨12, "staging", false⟩

/-- `testConfig['feature']` of the test script (the default). -/
def testConfigFeature : TestConfig := ⟨8, "development", true⟩

/-- `testConfig['hotfix']` of the test script. -/
def testConfigHotfix : TestConfig := ⟨10, "hotfix", false⟩

/-- Configuration selection chain of the test script: default feature,
overridden for main/master, develop, and `hotfix/` branches. -/
def selectTestConfig (branchName : String) : TestConfig :=
  if branchName = "main" ∨ branchName = "master" then testConfigMain
  else if branchName = "develop" then testConfigDevelop
  else if strStartsWith branchName "hotfix/" then testConfigHotfix
  else testConfigFeature

/-- One line of the simulated unit-test loop. -/
def unitTestLine (i n : Nat) : String :=
  "✅ Test " ++ toString i ++ "/" ++ toString n ++ ": PASSED"

/-- All lines of the simulated unit-test loop for one configuration. -/
def simulatedUnitTestLines (cfg : TestConfig) : List String :=
  (List.range cfg.testCount).map (fun i => unitTestLine (i + 1) cfg.testCount)

/-- The three fixed integration-test result lines of the test script. -/
def integrationTestLines : List String :=
  ["✅ Integration Test 1: API connectivity - PASSED",
   "✅ Integration Test 2: Database connection - PASSED",
   "✅ Integration Test 3: External service - PASSED"]

/-- The whole integration block of the test script (banner plus the three
result lines). -/
def integrationBlockLines : List String :=
  "🔗 Running integration tests..." :: integrationTestLines

/-- The test-simulation output of the test script: the unit-test loop lines,
then the integration block unless `skipIntegrationTests` is set. -/
def testRunnerOutput (branchName : String) : List String :=
  let cfg := selectTestConfig branchName
  simulatedUnitTestLines cfg ++
    (if cfg.skipIntegrationTests then [] else integrationBlockLines)

/-- `app.js` branch name: `process.env.BRANCH_NAME || 'unknown'`. -/
def jsBranchName (raw : String) : String :=
  if raw = "" then "unknown" else raw

/-- `app.js` `getBranchEnvironment` (its default case returns
`'unknown'`, unlike the Jenkinsfile variant). -/
def appGetBranchEnvironment (branch : String) : String :=
  if branch = "main" ∨ branch = "master" then "production"
  else if branch = "develop" then "staging"
  else if strStartsWith branch "feature/" then "development"
  else if strStartsWith branch "hotfix/" then "hotfix"
  else "unknown"

/-- Body of an `app.js` HTTP response, by route. -/
inductive ResponseBody where
  | health (status branch environment : String)
  | info (application version branch build environment : String)
  | root (message branch build environment timestamp healthEndpoint infoEndpoint : String)
deriving DecidableEq

/-- An `app.js` HTTP response: status code, content type, body. -/
structure HttpResponse where
  status : Nat
  contentType : String
  body : ResponseBody
deriving DecidableEq

/-- The `app.js` request handler: `writeHead(200, application/json)`
unconditionally, then the body is dispatched on `req.url` with the root
response for every URL other than `/health` and `/info`. -/
def handleRequest (branchName buildNumber timestamp url : String) : HttpResponse :=
  let environment := appGetBranchEnvironment branchName
  { status := 200
    contentType := "application/json"
    body :=
      if url = "/health" then
        .health "healthy" branchName environment
      else if url = "/info" then
        .info "multi-branch-demo" "1.0.0" branchName buildNumber environment
      else
        .root "Hello from Multi-Branch Pipeline Demo!" branchName buildNumber
          environment timestamp "/health" "/info" }

/-- A string starts with a pattern exactly when its character data extends
the pattern's character data. -/
theorem startsWith_iff_data (s p : String) :
    strStartsWith s p = true ↔ ∃ t, s.data = p.data ++ t := by
  unfold strStartsWith
  rw [ List.isPrefixOf_iff_prefix]
  constructor
  · rintro ⟨t, ht⟩
    exact ⟨t, ht.symm⟩
  · rintro ⟨t, ht⟩
    exact ⟨t, ht.symm⟩

/-- A string starting with a pattern inherits the pattern's first
character. -/
theorem head_of_startsWith {s p : String} (h : strStartsWith s p = true)
    {c : Char} {l : List Char} (hp : p.data = c :: l) :
    ∃ l', s.data = c :: l' := by
  obtain ⟨t, ht⟩ := (startsWith_iff_data s p).mp h
  exact ⟨l ++ t, by rw [ht, hp, List.cons_append]⟩

/-- A string whose first character differs from a pattern's first character
does not start with that pattern. -/
theorem not_startsWith_of_head {s q : String} {c c' : Char} {l l' : List Char}
    (hs : s.data = c :: l) (hq : q.data = c' :: l') (hne : (c' == c) = false) :
    strStartsWith s q = false := by
  unfold strStartsWith
  rw [hs, hq]
  simp [List.isPrefixOf, hne]

/-- A string whose first character differs from another string's first
character is not equal to it. -/
theorem ne_of_head {s : String} {c : Char} {l : List Char}
    (hs : s.data = c :: l) (q : String) {c' : Char} {l' : List Char}
    (hq : q.data = c' :: l') (hne : ¬ c = c') : s ≠ q := by
  intro he
  subst he
  have hd := hs.symm.trans hq
  injection hd with h1 _
  exact hne h1

/-- Normalisation is the identity on nonempty branch names. -/
theorem normalize_of_ne {b : String} (h : b ≠ "") : normalize b = b :=
  if_neg h

/-- C6: classify("main") and classify("master") are the identical derived
record: same type, environment, auto-deploy eligibility, timeout, retention
and notification channel. -/
theorem mainMaster_classify_eq : classify "main" = classify "master" := by
  decide

/-- C8: the empty branch name classifies exactly as "unknown" does (the
empty input is normalised to "unknown" before any lookup), falling to the
default rule with environment development and type Unknown; `app.js`
performs the same normalisation. -/
theorem empty_unknown_classify_eq :
    classify "" = classify "unknown" ∧
    (classify "").environment = "development" ∧
    (classify "").branchType = "Unknown" ∧
    jsBranchName "" = "unknown" := by
  refine ⟨by decide, by decide, by decide, by decide⟩

/-- C1: every branch whose name starts with "feature/" is auto-deploy
eligible, except for the exact name "feature/experimental", which the
Auto Deploy stage guard excludes. -/
theorem featureAutoDeploy_eligibility (b : String)
    (h : strStartsWith b "feature/" = true) :
    (classify b).autoDeployEligible = !(b == "feature/experimental") := by
  have hb0 : b ≠ "" := by
    rintro rfl
    exact absurd h (by decide)
  obtain ⟨l, hb⟩ :=
    head_of_startsWith h (show "feature/".data = 'f' :: "eature/".data from rfl)
  have hdev : b ≠ "develop" := ne_of_head hb "develop" rfl (by decide)
  have hsd : shouldDeploy b = "true" := by
    simp [shouldDeploy, normalize_of_ne hb0, h]
  have hd2 : (b == "develop") = false := beq_eq_false_iff_ne.mpr hdev
  show autoDeployStageRuns b = !(b == "feature/experimental")
  unfold autoDeployStageRuns
  rw [hsd, hd2, h]
  simp

/-- Witness for C1 at the two distinguished inputs: the excluded branch
"feature/experimental" and an ordinary feature branch. -/
theorem featureAutoDeploy_eligibility_witness :
    (classify "feature/experimental").autoDeployEligible =
      !("feature/experimental" == "feature/experimental") ∧
    (classify "feature/login").autoDeployEligible =
      !("feature/login" == "feature/experimental") :=
  ⟨featureAutoDeploy_eligibility "feature/experimental" (by decide),
   featureAutoDeploy_eligibility "feature/login" (by decide)⟩

/-- Default-rule helper: a branch name matching none of the recognised
shapes classifies to the default record. -/
theorem classify_default_of (b : String)
    (h1 : b ≠ "main") (h2 : b ≠ "master") (h3 : b ≠ "develop")
    (h4 : strStartsWith b "feature/" = false)
    (h5 : strStartsWith b "hotfix/" = false)
    (h6 : strStartsWith b "release/" = false) :
    classify b = ⟨"Unknown", "development", false, 30, "10", "#development"⟩ := by
  by_cases hb0 : b = ""
  · subst hb0
    decide
  · have e3 : (b == "develop") = false := beq_eq_false_iff_ne.mpr h3
    simp [classify, getBranchType, getBranchEnvironment, autoDeployStageRuns,
      shouldDeploy, getBranchTimeout, getBranchBuildRetention,
      getBranchSlackChannel, normalize_of_ne hb0, h1, h2, h3, h4, h5, h6, e3]

/-- C2: any branch name that is none of main, master, develop and carries
none of the feature/, hotfix/, release/ prefixes classifies to the default
record: type Unknown, environment development, no auto-deploy, timeout 30,
retention 10 builds, channel #development. -/
theorem defaultRule_classification (b : String)
    (h1 : b ≠ "main") (h2 : b ≠ "master") (h3 : b ≠ "develop")
    (h4 : strStartsWith b "feature/" = false)
    (h5 : strStartsWith b "hotfix/" = false)
    (h6 : strStartsWith b "release/" = false) :
    classify b = ⟨"Unknown", "development", false, 30, "10", "#development"⟩ :=
  classify_default_of b h1 h2 h3 h4 h5 h6

/-- Witness for C2 at the concrete branch name "bugfix/login". -/
theorem defaultRule_classification_witness :
    classify "bugfix/login" =
      ⟨"Unknown", "development", false, 30, "10", "#development"⟩ :=
  defaultRule_classification "bugfix/login" (by decide) (by decide) (by decide)
    (by decide) (by decide) (by decide)

/-- C3: every branch whose name starts with "release/" classifies to type
Release but otherwise falls through to the defaults: environment
development, no auto-deploy, timeout 30, retention 10 builds, channel
#development. -/
theorem releaseFallThrough_classification (b : String)
    (h : strStartsWith b "release/" = true) :
    classify b = ⟨"Release", "development", false, 30, "10", "#development"⟩ := by
  have hb0 : b ≠ "" := by
    rintro rfl
    exact absurd h (by decide)
  obtain ⟨l, hb⟩ :=
    head_of_startsWith h (show "release/".data = 'r' :: "elease/".data from rfl)
  have h1 : b ≠ "main" := ne_of_head hb "main" rfl (by decide)
  have h2 : b ≠ "master" := ne_of_head hb "master" rfl (by decide)
  have h3 : b ≠ "develop" := ne_of_head hb "develop" rfl (by decide)
  have h4 : strStartsWith b "feature/" = false :=
    not_startsWith_of_head hb rfl (by decide)
  have h5 : strStartsWith b "hotfix/" = false :=
    not_startsWith_of_head hb rfl (by decide)
  have e3 : (b == "develop") = false := beq_eq_false_iff_ne.mpr h3
  simp [classify, getBranchType, getBranchEnvironment, autoDeployStageRuns,
    shouldDeploy, getBranchTimeout, getBranchBuildRetention,
    getBranchSlackChannel, normalize_of_ne hb0, h1, h2, h3, h4, h5, h, e3]

/-- Witness for C3 at the concrete branch name "release/2.0". -/
theorem releaseFallThrough_classification_witness :
    classify "release/2.0" =
      ⟨"Release", "development", false, 30, "10", "#development"⟩ :=
  releaseFallThrough_classification "release/2.0" (by decide)

/-- The source character class of `createDockerTag` agrees pointwise with
the specification's character class. -/
theorem dockerTagChar_cases (c : Char) :
    (if isDockerTagChar c then c else '-') =
      (if ('A' ≤ c ∧ c ≤ 'Z') ∨ ('a' ≤ c ∧ c ≤ 'z') ∨ ('0' ≤ c ∧ c ≤ '9') ∨
          c = '.' ∨ c = '-'
        then c else '-') := by
  have h : (isDockerTagChar c = true) ↔
      (('A' ≤ c ∧ c ≤ 'Z') ∨ ('a' ≤ c ∧ c ≤ 'z') ∨ ('0' ≤ c ∧ c ≤ '9') ∨
        c = '.' ∨ c = '-') := by
    simp only [isDockerTagChar, Bool.or_eq_true, Bool.and_eq_true,
      decide_eq_true_eq, beq_iff_eq]
    tauto
  exact if_congr h rfl rfl

/-- C4 counterexample: on the empty branch name the code first substitutes
"unknown", so the tag is "unknown-42" and not the "-42" that a plain
character-by-character transform of the input would give. -/
theorem sanitizeTag_empty_counterexample :
    createDockerTag "" 42 ≠ sanitizeTagSpec "" 42 ∧
    createDockerTag "" 42 = "unknown-42" ∧
    sanitizeTagSpec "" 42 = "-42" :=
  ⟨by decide, by decide, by decide⟩

/-- C4 (amended): for every branch name, the produced tag is the
specification's transform applied to the name after empty input is replaced
by "unknown"; in particular the documented example holds. -/
theorem sanitizeTag_refines_spec (b : String) (n : Nat) :
    createDockerTag b n = sanitizeTagSpec (if b = "" then "unknown" else b) n ∧
    createDockerTag "feature/My_Branch!" 42 = "feature-my-branch--42" := by
  constructor
  · have hmap : (normalize b).data.map
        (fun c => if isDockerTagChar c then c else '-') =
        (normalize b).data.map (fun c =>
          if ('A' ≤ c ∧ c ≤ 'Z') ∨ ('a' ≤ c ∧ c ≤ 'z') ∨ ('0' ≤ c ∧ c ≤ '9') ∨
              c = '.' ∨ c = '-'
            then c else '-') :=
      List.map_congr_left (fun c _ => dockerTagChar_cases c)
    show createDockerTag b n = sanitizeTagSpec (normalize b) n
    simp only [createDockerTag, sanitizeTagSpec]
    rw [hmap]
  · decide

/-- C5 counterexample: "mainframe" passes the code's validation (it starts
with the pattern "main"), yet it is malformed in the specification's sense,
so the claimed equivalence fails there. -/
theorem validateWarn_iff_counterexample :
    ¬ (validateBranchNameWarns "mainframe" = true ↔
        wellFormedSpec "mainframe" = false) := by
  decide

/-- C5 (amended): the validator warns exactly when the (normalised) branch
name starts with none of the six patterns "main", "master", "develop",
"feature/", "hotfix/", "release/" (prefix matching also for the three exact
names, so e.g. "mainframe" passes); warned names are never rejected and
still classify via the default rule. -/
theorem validateWarn_iff_amended (b : String) :
    (validateBranchNameWarns b = true ↔
      (strStartsWith (normalize b) "main" = false ∧
       strStartsWith (normalize b) "master" = false ∧
       strStartsWith (normalize b) "develop" = false ∧
       strStartsWith (normalize b) "feature/" = false ∧
       strStartsWith (normalize b) "hotfix/" = false ∧
       strStartsWith (normalize b) "release/" = false)) ∧
    (validateBranchNameWarns b = true →
      classify b = ⟨"Unknown", "development", false, 30, "10", "#development"⟩) := by
  have hiff : validateBranchNameWarns b = true ↔
      (strStartsWith (normalize b) "main" = false ∧
       strStartsWith (normalize b) "master" = false ∧
       strStartsWith (normalize b) "develop" = false ∧
       strStartsWith (normalize b) "feature/" = false ∧
       strStartsWith (normalize b) "hotfix/" = false ∧
       strStartsWith (normalize b) "release/" = false) := by
    simp only [validateBranchNameWarns, validBranchNamePatterns, List.any_cons,
      List.any_nil, Bool.or_false, Bool.not_eq_true', Bool.or_eq_false_iff]
  refine ⟨hiff, fun hw => ?_⟩
  by_cases hb0 : b = ""
  · subst hb0
    decide
  · obtain ⟨m1, m2, m3, m4, m5, m6⟩ := hiff.mp hw
    rw [normalize_of_ne hb0] at m1 m2 m3 m4 m5 m6
    have h1 : b ≠ "main" := by
      rintro rfl
      exact absurd m1 (by decide)
    have h2 : b ≠ "master" := by
      rintro rfl
      exact absurd m2 (by decide)
    have h3 : b ≠ "develop" := by
      rintro rfl
      exact absurd m3 (by decide)
    exact classify_default_of b h1 h2 h3 m4 m5 m6

/-- Witness for the amended C5 at the concrete branch name "random". -/
theorem validateWarn_iff_amended_witness :
    (validateBranchNameWarns "random" = true ↔
      (strStartsWith (normalize "random") "main" = false ∧
       strStartsWith (normalize "random") "master" = false ∧
       strStartsWith (normalize "random") "develop" = false ∧
       strStartsWith (normalize "random") "feature/" = false ∧
       strStartsWith (normalize "random") "hotfix/" = false ∧
       strStartsWith (normalize "random") "release/" = false)) ∧
    classify "random" = ⟨"Unknown", "development", false, 30, "10", "#development"⟩ :=
  ⟨(validateWarn_iff_amended "random").1,
   (validateWarn_iff_amended "random").2 (by decide)⟩

/-- C7: classification is total — for every string, every derived field is
present and lies in its finite documented range. -/
theorem classify_total_fields (s : String) :
    (classify s).branchType ∈
      (["Production", "Staging", "Feature", "Hotfix", "Release", "Unknown"] : List String) ∧
    (classify s).environment ∈
      (["production", "staging", "development", "hotfix"] : List String) ∧
    ((classify s).autoDeployEligible = true ∨ (classify s).autoDeployEligible = false) ∧
    (classify s).buildTimeoutMinutes ∈ ([60, 45, 30] : List Nat) ∧
    (classify s).buildRetention ∈ (["50", "20", "10"] : List String) ∧
    (classify s).notificationChannel ∈
      (["#production-alerts", "#staging-updates", "#development"] : List String) := by
  refine ⟨?_, ?_, ?_, ?_, ?_, ?_⟩
  · show getBranchType s ∈ _
    simp only [getBranchType]
    repeat' split
    all_goals decide
  · show getBranchEnvironment s ∈ _
    simp only [getBranchEnvironment]
    repeat' split
    all_goals decide
  · cases h : (classify s).autoDeployEligible
    · exact Or.inr rfl
    · exact Or.inl rfl
  · show getBranchTimeout s ∈ _
    simp only [getBranchTimeout]
    repeat' split
    all_goals decide
  · show getBranchBuildRetention s ∈ _
    simp only [getBranchBuildRetention]
    repeat' split
    all_goals decide
  · show getBranchSlackChannel s ∈ _
    simp only [getBranchSlackChannel]
    repeat' split
    all_goals decide

/-- A simulated unit-test line is never one of the integration lines: their
character data diverges at the third character. -/
theorem unitTestLine_ne_integration (i n : Nat) (l : String)
    (hl : ∃ l', l.data = '✅' :: ' ' :: 'I' :: l') : unitTestLine i n ≠ l := by
  intro he
  obtain ⟨l', hl⟩ := hl
  have hd : (unitTestLine i n).data = '✅' :: ' ' :: 'I' :: l' := by
    rw [he, hl]
  have hu : (unitTestLine i n).data =
      '✅' :: ' ' :: 'T' :: 'e' :: 's' :: 't' :: ' ' ::
        ((toString i).data ++ ('/' :: ((toString n).data ++
          (':' :: ' ' :: 'P' :: 'A' :: 'S' :: 'S' :: 'E' :: 'D' :: [])))) := by
    simp only [unitTestLine, String.data_append, List.append_assoc]
    rfl
  rw [hu] at hd
  simp at hd

/-- C9: the fake test runner selects the main configuration for main and
master, the develop configuration for develop, the hotfix configuration for
`hotfix/` branches and the feature default otherwise; it emits exactly
`testCount` lines of the form `Test i/N: PASSED`, and the three fixed
integration-test lines appear in its output exactly when
`skipIntegrationTests` is false. -/
theorem testRunner_behavior (b : String) :
    ((b = "main" ∨ b = "master") → selectTestConfig b = testConfigMain) ∧
    (b = "develop" → selectTestConfig b = testConfigDevelop) ∧
    (strStartsWith b "hotfix/" = true → selectTestConfig b = testConfigHotfix) ∧
    (b ≠ "main" → b ≠ "master" → b ≠ "develop" →
      strStartsWith b "hotfix/" = false → selectTestConfig b = testConfigFeature) ∧
    (testRunnerOutput b).length = (selectTestConfig b).testCount +
      (if (selectTestConfig b).skipIntegrationTests then 0 else 4) ∧
    (∀ i, i < (selectTestConfig b).testCount →
      (testRunnerOutput b)[i]? =
        some (unitTestLine (i + 1) (selectTestConfig b).testCount)) ∧
    ((∀ l ∈ integrationTestLines, l ∈ testRunnerOutput b) ↔
      (selectTestConfig b).skipIntegrationTests = false) := by
  refine ⟨?_, ?_, ?_, ?_, ?_, ?_, ?_⟩
  · intro h
    unfold selectTestConfig
    rw [if_pos h]
  · rintro rfl
    decide
  · intro h
    obtain ⟨l, hb⟩ :=
      head_of_startsWith h (show "hotfix/".data = 'h' :: "otfix/".data from rfl)
    have h1 : b ≠ "main" := ne_of_head hb "main" rfl (by decide)
    have h2 : b ≠ "master" := ne_of_head hb "master" rfl (by decide)
    have h3 : b ≠ "develop" := ne_of_head hb "develop" rfl (by decide)
    unfold selectTestConfig
    rw [if_neg (not_or.mpr ⟨h1, h2⟩), if_neg h3, if_pos h]
  · intro h1 h2 h3 h4
    unfold selectTestConfig
    rw [if_neg (not_or.mpr ⟨h1, h2⟩), if_neg h3, if_neg (by simp [h4])]
  · cases hskip : (selectTestConfig b).skipIntegrationTests <;>
      simp [testRunnerOutput, simulatedUnitTestLines, hskip,
        integrationBlockLines, integrationTestLines]
  · intro i hi
    have hlen : i < (simulatedUnitTestLines (selectTestConfig b)).length := by
      simpa [simulatedUnitTestLines] using hi
    simp only [testRunnerOutput]
    rw [ List.getElem?_append_left hlen]
    simp [simulatedUnitTestLines, List.getElem?_range, hi]
  · cases hskip : (selectTestConfig b).skipIntegrationTests
    · simp only [hskip, iff_true]
      intro l hl
      simp only [testRunnerOutput, hskip, if_neg Bool.false_ne_true,
        integrationBlockLines, List.mem_append, List.mem_cons]
      tauto
    · simp only [hskip, Bool.true_eq_false, iff_false]
      intro hall
      have h1 := hall "✅ Integration Test 1: API connectivity - PASSED"
        (by simp [integrationTestLines])
      simp only [testRunnerOutput, hskip, ite_true, List.append_nil,
        simulatedUnitTestLines] at h1
      obtain ⟨j, _, hf⟩ := List.mem_map.mp h1
      exact unitTestLine_ne_integration (j + 1) (selectTestConfig b).testCount
        _ ⟨_, rfl⟩ hf

/-- Witness for C9 at the concrete branch name "hotfix/fix". -/
theorem testRunner_behavior_witness :
    selectTestConfig "hotfix/fix" = testConfigHotfix ∧
    (testRunnerOutput "hotfix/fix")[0]? =
      some (unitTestLine 1 (selectTestConfig "hotfix/fix").testCount) := by
  refine ⟨(testRunner_behavior "hotfix/fix").2.2.1 (by decide), ?_⟩
  have h := (testRunner_behavior "hotfix/fix").2.2.2.2.2.1 0 (by decide)
  simpa using h

/-- C10: the demo server answers every request with status 200 and content
type application/json, and every URL other than "/health" and "/info"
receives the root response body; there is no 404 or error route. -/
theorem server_responses (bn bu ts url : String) :
    (handleRequest bn bu ts url).status = 200 ∧
    (handleRequest bn bu ts url).contentType = "application/json" ∧
    (url ≠ "/health" → url ≠ "/info" →
      (handleRequest bn bu ts url).body =
        .root "Hello from Multi-Branch Pipeline Demo!" bn bu
          (appGetBranchEnvironment bn) ts "/health" "/info") := by
  refine ⟨rfl, rfl, fun h1 h2 => ?_⟩
  simp [handleRequest, h1, h2]

/-- Witness for C10 at the URL "/nope". -/
theorem server_responses_witness :
    (handleRequest "feature/x" "7" "t0" "/nope").status = 200 ∧
    (handleRequest "feature/x" "7" "t0" "/nope").contentType = "application/json" ∧
    (handleRequest "feature/x" "7" "t0" "/nope").body =
      .root "Hello from Multi-Branch Pipeline Demo!" "feature/x" "7"
        (appGetBranchEnvironment "feature/x") "t0" "/health" "/info" := by
  obtain ⟨a, h, c⟩ := server_responses "feature/x" "7" "t0" "/nope"
  exact ⟨a, h, c (by decide) (by decide)⟩

end Jenkins
